import Mathlib

/-!
Verification of the claim-eligibility and disbursement engine of the
faucet bot (src/bot.py) against its specification.

The embedding models the module-level mutable state of bot.py
(the whitelist dictionary, the last_claim dictionary, the FAUCET_AMOUNT
global and the persisted whitelist.json file) as an explicit state
record, and the message handlers as pure state-passing functions.
Python strings are modelled as lists of characters so that every
operation reduces by kernel computation. External web3 calls (nonce
lookup, gas price, signing, broadcasting, checksum conversion) are
modelled by an environment record carrying their outcomes, and the
handler records which external submission-side calls it performs as an
explicit effect trace.
-/

namespace Faucet

/-- Python strings, modelled as lists of characters. -/
abbrev Str : Type := List Char

/-- Cooldown duration: timedelta(hours=24) from src/bot.py lines 148 and 209,
measured in seconds. -/
def cooldownSecs : Int := 86400

/-- CHAIN_ID = 421614 from src/bot.py line 29. -/
def CHAIN_ID : Nat := 421614

/-- Module default of the FAUCET_AMOUNT global: 0.001 ETH
(src/bot.py line 28), as a rational. -/
def FAUCET_AMOUNT_default : ℚ := 1 / 1000

/-- Per-user wallet cap from admin_add_wallet_input (src/bot.py line 331):
a user may hold at most 10 whitelisted wallets. -/
def MAX_WALLETS_PER_USER : Nat := 10

/-- Python str.lower(), per character. -/
def pyLower (s : Str) : Str := s.map Char.toLower

/-- Python str.strip(): drop leading and trailing whitespace. -/
def pyStrip (s : Str) : Str :=
  ((s.dropWhile Char.isWhitespace).reverse.dropWhile Char.isWhitespace).reverse

/-- Association-list lookup, modelling Python dict lookup. -/
def alookup {α β : Type} [DecidableEq α] (k : α) : List (α × β) → Option β
  | [] => none
  | (k₁, v) :: rest => if k₁ = k then some v else alookup k rest

/-- Association-list update, modelling Python dict assignment: replaces the
value at an existing key in place, appends a fresh key at the end. -/
def aupdate {α β : Type} [DecidableEq α] (k : α) (v : β) : List (α × β) → List (α × β)
  | [] => [(k, v)]
  | (k₁, v₁) :: rest => if k₁ = k then (k, v) :: rest else (k₁, v₁) :: aupdate k v rest

/-- Association-list deletion, modelling Python `del d[k]`. -/
def aremove {α β : Type} [DecidableEq α] (k : α) : List (α × β) → List (α × β)
  | [] => []
  | (k₁, v₁) :: rest => if k₁ = k then rest else (k₁, v₁) :: aremove k rest

/-- The module-level mutable state of bot.py: the whitelist dictionary
(user key to list of wallet addresses, line 39), the last_claim
dictionary (user id to time of last successful claim, line 84), the
FAUCET_AMOUNT global (line 28), and the contents of the persisted
whitelist.json file (none when the file does not exist). -/
structure BotState where
  whitelist : List (Str × List Str)
  last_claim : List (Nat × Int)
  amount : ℚ
  savedUsers : Option (List (Str × List Str))
  deriving DecidableEq

/-- External submission-side calls performed by a claim, in order:
w3.eth.get_transaction_count (line 223), w3.eth.gas_price (line 227),
sign_transaction (line 231), send_raw_transaction (line 232).
estimateGas is listed because the spec mentions gas estimation; the
source never performs it. -/
inductive Effect where
  | getNonce
  | getGasPrice
  | estimateGas
  | sign
  | broadcast
  deriving DecidableEq

/-- Outcome of the web3 environment for one claim: models which calls
raise and what send_raw_transaction returns. -/
structure Web3Env where
  checksumOk : Bool
  nonce : Option Nat
  gasPrice : Option Nat
  signOk : Bool
  sendResult : Option Str
  deriving DecidableEq

/-- The transaction dictionary built at src/bot.py lines 222 to 229. -/
structure Tx where
  nonce : Nat
  toAddr : Str
  value : ℚ
  gas : Nat
  gasPrice : Nat
  chainId : Nat
  deriving DecidableEq

/-- Builds the tx dict of src/bot.py lines 222 to 229: value is
to_wei(FAUCET_AMOUNT), the gas limit is the constant 25000, chain id is
CHAIN_ID. -/
def mkTx (s : BotState) (nonce gasPrice : Nat) (toAddr : Str) : Tx :=
  { nonce := nonce
    toAddr := toAddr
    value := s.amount * 1000000000000000000
    gas := 25000
    gasPrice := gasPrice
    chainId := CHAIN_ID }

/-- The user-visible result of faucet_receive_address, one constructor per
reply branch of src/bot.py lines 190 to 246. raised marks an exception
escaping the handler (nonce or gas-price lookup failing outside any try). -/
inductive ClaimResult where
  | notWhitelisted
  | invalidAddress
  | walletNotApproved
  | onCooldown (remaining : Int)
  | addressError
  | txError
  | success (txHash : Str)
  | raised
  deriving DecidableEq

/-- Full outcome of one faucet_receive_address call: the reply branch
taken, the resulting module state, the submission-side calls performed,
and the transaction dict if one was built. -/
structure ClaimOutcome where
  result : ClaimResult
  state : BotState
  effects : List Effect
  tx : Option Tx
  deriving DecidableEq

/-- Lower-case hex digit test for address validation. -/
def isHexLower (c : Char) : Bool :=
  c.isDigit || ('a' ≤ c && c ≤ 'f')

/-- Models w3.is_address (src/bot.py line 199) on the already lower-cased
input: the characters 0 and x followed by exactly 40 lower-case hex
digits. -/
def is_address : Str → Bool
  | '0' :: 'x' :: rest => rest.length == 40 && rest.all isHexLower
  | _ => false

/-- Python str(user_id), the whitelist key of a numeric Telegram id
(src/bot.py line 192). -/
def toKey (uid : Nat) : Str := (toString uid).data

/-- Hash normalization of src/bot.py lines 234 to 236: prefix 0x when the
hex form lacks it. -/
def normalizeHash (h : Str) : Str :=
  match h with
  | '0' :: 'x' :: rest => '0' :: 'x' :: rest
  | other => '0' :: 'x' :: other

/-- The cooldown test of src/bot.py lines 206 to 213: some remaining time
when user_id has a recorded last claim less than 24 hours old, none
otherwise. -/
def onCooldownAt (lc : List (Nat × Int)) (uid : Nat) (now : Int) : Option Int :=
  match alookup uid lc with
  | some t => if now - t < cooldownSecs then some (cooldownSecs - (now - t)) else none
  | none => none

/-- The disbursement part of faucet_receive_address (src/bot.py lines 214
to 246): checksum conversion, tx construction with nonce and gas price
lookups, signing, broadcasting, and the ledger write on success. The
checksum conversion is modelled as the identity on the lower-cased
address plus a failure flag. -/
def disburse (env : Web3Env) (s : BotState) (user_id : Nat) (addr : Str) (now : Int) :
    ClaimOutcome :=
  if env.checksumOk = false then
    ⟨ClaimResult.addressError, s, [], none⟩
  else
    match env.nonce with
    | none => ⟨ClaimResult.raised, s, [Effect.getNonce], none⟩
    | some n =>
      match env.gasPrice with
      | none => ⟨ClaimResult.raised, s, [Effect.getNonce, Effect.getGasPrice], none⟩
      | some gp =>
        if env.signOk = false then
          ⟨ClaimResult.txError, s, [Effect.getNonce, Effect.getGasPrice, Effect.sign],
            some (mkTx s n gp addr)⟩
        else
          match env.sendResult with
          | none =>
            ⟨ClaimResult.txError, s,
              [Effect.getNonce, Effect.getGasPrice, Effect.sign, Effect.broadcast],
              some (mkTx s n gp addr)⟩
          | some h =>
            ⟨ClaimResult.success (normalizeHash h),
              { s with last_claim := aupdate user_id now s.last_claim },
              [Effect.getNonce, Effect.getGasPrice, Effect.sign, Effect.broadcast],
              some (mkTx s n gp addr)⟩

/-- Shallow embedding of faucet_receive_address (src/bot.py lines 190 to
246): lower-case the submitted text, then in source order check identity
whitelist membership, address format, per-identity wallet approval and
the 24 hour identity cooldown, and finally disburse. -/
def faucet_receive_address (env : Web3Env) (s : BotState) (user_id : Nat)
    (text : Str) (now : Int) : ClaimOutcome :=
  match alookup (toKey user_id) s.whitelist with
  | none => ⟨ClaimResult.notWhitelisted, s, [], none⟩
  | some wallets =>
    if is_address (pyLower (pyStrip text)) = false then
      ⟨ClaimResult.invalidAddress, s, [], none⟩
    else if (pyLower (pyStrip text) ∈ wallets : Prop) then
      match onCooldownAt s.last_claim user_id now with
      | some remaining => ⟨ClaimResult.onCooldown remaining, s, [], none⟩
      | none => disburse env s user_id (pyLower (pyStrip text)) now
    else
      ⟨ClaimResult.walletNotApproved, s, [], none⟩

/-- Python str.split() with no argument (src/bot.py line 325): split on
whitespace runs and drop empty segments. The accumulator carries the
current segment reversed. -/
def pySplitAux : Str → Str → List Str
  | [], acc => if acc = [] then [] else [acc.reverse]
  | c :: rest, acc =>
    if c.isWhitespace then
      if acc = [] then pySplitAux rest [] else acc.reverse :: pySplitAux rest []
    else pySplitAux rest (c :: acc)

/-- Python str.split() with no argument. -/
def pySplit (s : Str) : List Str := pySplitAux s []

/-- Shallow embedding of admin_panel (src/bot.py lines 255 to 260): shows
the admin keyboard, touches no state and performs no caller check; the
caller id is used only for logging. -/
def admin_panel (caller : Nat) (s : BotState) : BotState × Bool :=
  (s, true)

/-- Shallow embedding of save_whitelist (src/bot.py lines 61 to 68):
attempt to write the users map to whitelist.json. An I/O error is caught
inside save_whitelist and only logged, leaving the file as it was; the
caller cannot observe the failure. The ok flag models whether the write
raised; the result is the file content after the call. -/
def save_whitelist (ok : Bool) (w : List (Str × List Str))
    (file : Option (List (Str × List Str))) : Option (List (Str × List Str)) :=
  match ok with
  | true => some w
  | false => file

/-- Shallow embedding of admin_add_user_input (src/bot.py lines 299 to
309): insert a fresh whitelist key with an empty wallet list and call
save_whitelist; the Bool records whether the success reply was sent,
which happens even when the file write inside save_whitelist raised (the
error is swallowed there). The caller id is never consulted. -/
def admin_add_user_input (saveOk : Bool) (caller : Nat) (s : BotState) (text : Str) :
    BotState × Bool :=
  match alookup (pyStrip text) s.whitelist with
  | none =>
    ({ s with
        whitelist := aupdate (pyStrip text) [] s.whitelist
        savedUsers := save_whitelist saveOk (aupdate (pyStrip text) [] s.whitelist)
          s.savedUsers }, true)
  | some _ => (s, false)

/-- Shallow embedding of admin_remove_user_input (src/bot.py lines 311 to
321): delete the whitelist key and call save_whitelist; the success reply
is sent even when the file write raised. The caller id is never
consulted. -/
def admin_remove_user_input (saveOk : Bool) (caller : Nat) (s : BotState) (text : Str) :
    BotState × Bool :=
  match alookup (pyStrip text) s.whitelist with
  | some _ =>
    ({ s with
        whitelist := aremove (pyStrip text) s.whitelist
        savedUsers := save_whitelist saveOk (aremove (pyStrip text) s.whitelist)
          s.savedUsers }, true)
  | none => (s, false)

/-- Shallow embedding of admin_add_wallet_input (src/bot.py lines 323 to
344): parse wallet and user id from the text, enforce the 10 wallet cap,
append the lower-cased wallet and call save_whitelist; the success reply
is sent even when the file write raised. The caller id is never
consulted. -/
def admin_add_wallet_input (saveOk : Bool) (caller : Nat) (s : BotState) (text : Str) :
    BotState × Bool :=
  match pySplit (pyStrip text) with
  | wRaw :: uid :: _ =>
    match alookup uid s.whitelist with
    | some ws =>
      if ws.length < MAX_WALLETS_PER_USER then
        if (pyLower wRaw ∈ ws : Prop) then (s, false)
        else
          ({ s with
              whitelist := aupdate uid (ws ++ [pyLower wRaw]) s.whitelist
              savedUsers := save_whitelist saveOk
                (aupdate uid (ws ++ [pyLower wRaw]) s.whitelist) s.savedUsers }, true)
      else (s, false)
    | none => (s, false)
  | _ => (s, false)

/-- Removes the wallet from the first user whose list contains it,
mirroring the loop with break of src/bot.py lines 349 to 353; none when
no user holds it. -/
def removeWalletFrom (wallet : Str) : List (Str × List Str) →
    Option (List (Str × List Str))
  | [] => none
  | (u, ws) :: rest =>
    if (wallet ∈ ws : Prop) then some ((u, ws.erase wallet) :: rest)
    else (removeWalletFrom wallet rest).map (fun r => (u, ws) :: r)

/-- Shallow embedding of admin_remove_wallet_input (src/bot.py lines 346
to 361): lower-case the text, remove the wallet from the first holder and
call save_whitelist when found; the success reply is sent even when the
file write raised. The caller id is never consulted. -/
def admin_remove_wallet_input (saveOk : Bool) (caller : Nat) (s : BotState) (text : Str) :
    BotState × Bool :=
  match removeWalletFrom (pyLower (pyStrip text)) s.whitelist with
  | some w =>
    ({ s with whitelist := w, savedUsers := save_whitelist saveOk w s.savedUsers }, true)
  | none => (s, false)

/-- Shallow embedding of admin_set_amount_input (src/bot.py lines 363 to
373): float parsing of the message text is modelled by the already parsed
optional rational. On success only the in-memory FAUCET_AMOUNT global is
assigned; nothing is written to disk. The caller id is never consulted. -/
def admin_set_amount_input (caller : Nat) (s : BotState) (parsed : Option ℚ) :
    BotState × Bool :=
  match parsed with
  | some q => ({ s with amount := q }, true)
  | none => (s, false)

/-- Shallow embedding of load_whitelist (src/bot.py lines 41 to 59) for a
fresh process: read the users map from whitelist.json when the file
exists; otherwise initialize from the WHITELISTED_USER_IDS environment
variable, modelled here as unset, giving the empty map. -/
def load_whitelist (file : Option (List (Str × List Str))) :
    List (Str × List Str) :=
  match file with
  | some users => users
  | none => []

/-- Process restart: module re-evaluation resets FAUCET_AMOUNT to its
literal default 0.001 (line 28) and last_claim to the empty dict
(line 84), then load_whitelist runs (line 70), saving the file when it
was absent. -/
def restart (file : Option (List (Str × List Str))) : BotState :=
  { whitelist := load_whitelist file
    last_claim := []
    amount := FAUCET_AMOUNT_default
    savedUsers := some (load_whitelist file) }

/-- One claim request delivered to faucet_receive_address: the web3
environment for this call, the requesting identity, the submitted text
and the wall-clock time datetime.now() observed at line 206. -/
structure ClaimRequest where
  env : Web3Env
  uid : Nat
  text : Str
  now : Int
  deriving DecidableEq

/-- A successful claim event: who claimed, the destination address paid
and when. -/
structure ClaimEvent where
  uid : Nat
  address : Str
  time : Int
  deriving DecidableEq

/-- Events produced by one claim outcome: one successful-claim event on
the success branch, nothing otherwise. -/
def stepEvents (r : ClaimRequest) (o : ClaimOutcome) : List ClaimEvent :=
  match o.result with
  | ClaimResult.success _ => [⟨r.uid, pyLower (pyStrip r.text), r.now⟩]
  | _ => []

/-- Runs a sequence of claim requests through faucet_receive_address,
threading the module state and collecting the successful claim events in
order. -/
def runTrace (s : BotState) : List ClaimRequest → BotState × List ClaimEvent
  | [] => (s, [])
  | r :: rest =>
    ((runTrace (faucet_receive_address r.env s r.uid r.text r.now).state rest).1,
      stepEvents r (faucet_receive_address r.env s r.uid r.text r.now) ++
        (runTrace (faucet_receive_address r.env s r.uid r.text r.now).state rest).2)

/-- The successful claim events of one identity, in trace order. -/
def eventsBy (uid : Nat) (evs : List ClaimEvent) : List ClaimEvent :=
  evs.filter (fun e => decide (e.uid = uid))

/-- Membership of an event time in the sliding window of one cooldown
length starting at t0. -/
def inWindow (t0 : Int) (e : ClaimEvent) : Bool :=
  decide (t0 ≤ e.time) && decide (e.time < t0 + cooldownSecs)

/-- Number of distinct destination addresses successfully claimed by one
identity inside the window of one cooldown length starting at t0. -/
def distinctAddressesIn (uid : Nat) (t0 : Int) (evs : List ClaimEvent) : Nat :=
  ((((eventsBy uid evs).filter (inWindow t0)).map (fun e => e.address)).dedup).length

/-- Denial results of a claim: the four reply branches of src/bot.py
lines 195 to 213 that reject the request before any disbursement work. -/
def isDenial : ClaimResult → Bool
  | ClaimResult.notWhitelisted => true
  | ClaimResult.invalidAddress => true
  | ClaimResult.walletNotApproved => true
  | ClaimResult.onCooldown _ => true
  | _ => false

/-- Modelled from the spec: the gas-limit selection rule of section 4.3
of the specification, which the source does not contain — on successful
estimation use the estimate scaled by the margin factor, on estimation
failure use the configured fallback gas limit. The margin factor is the
fraction marginNum over marginDen. -/
def gasLimitSpec (estimate : Option Nat) (marginNum marginDen fallback : Nat) : Nat :=
  match estimate with
  | some e => e * marginNum / marginDen
  | none => fallback

/-! Helper lemmas about the association-list operations. -/

theorem alookup_aupdate_self {α β : Type} [DecidableEq α] (k : α) (v : β)
    (m : List (α × β)) : alookup k (aupdate k v m) = some v := by
  induction m with
  | nil => simp [alookup, aupdate]
  | cons p rest ih =>
    obtain ⟨k₁, v₁⟩ := p
    by_cases h : k₁ = k <;> simp [alookup, aupdate, h, ih]

theorem alookup_aupdate_ne {α β : Type} [DecidableEq α] {k k₁ : α} (v : β)
    (m : List (α × β)) (h : k₁ ≠ k) : alookup k (aupdate k₁ v m) = alookup k m := by
  induction m with
  | nil => simp [alookup, aupdate, h]
  | cons p rest ih =>
    obtain ⟨k₂, v₂⟩ := p
    by_cases h₂ : k₂ = k₁
    · subst h₂; simp [alookup, aupdate, h]
    · simp [alookup, aupdate, h₂, ih]

/-- A state off cooldown for uid at now genuinely changes when the claim
time is recorded. -/
theorem aupdate_ne_of_offCooldown {lc : List (Nat × Int)} {uid : Nat} {now : Int}
    (h : onCooldownAt lc uid now = none) : aupdate uid now lc ≠ lc := by
  intro heq
  have h₁ : alookup uid (aupdate uid now lc) = some now := alookup_aupdate_self uid now lc
  rw [heq] at h₁
  unfold onCooldownAt at h
  rw [h₁] at h
  have h₂ : now - now < cooldownSecs := by simp [cooldownSecs]
  simp [h₂] at h
  simp [cooldownSecs] at h

/-! Case-analysis lemmas about faucet_receive_address, each proved by
splitting every branch of the definition. -/

/-- Either the claim leaves the module state untouched and is not a
success, or broadcasting returned a hash, the identity was off cooldown,
the result is success of the normalized hash and exactly the last_claim
entry of the identity is rewritten to now. -/
theorem faucet_main (env : Web3Env) (s : BotState) (uid : Nat) (text : Str) (now : Int) :
    ((faucet_receive_address env s uid text now).state = s ∧
      ∀ h, (faucet_receive_address env s uid text now).result ≠ ClaimResult.success h)
    ∨ (∃ h, env.sendResult = some h ∧
        (faucet_receive_address env s uid text now).result =
          ClaimResult.success (normalizeHash h) ∧
        (faucet_receive_address env s uid text now).state =
          { s with last_claim := aupdate uid now s.last_claim } ∧
        onCooldownAt s.last_claim uid now = none) := by
  unfold faucet_receive_address disburse
  repeat' split
  all_goals first
    | exact Or.inl ⟨rfl, by simp⟩
    | (rename_i hsend; refine Or.inr ⟨_, hsend, rfl, rfl, by assumption⟩)

/-- A denied claim is the identity on the module state, performs no
submission-side call and builds no transaction. -/
theorem faucet_denial_shape (env : Web3Env) (s : BotState) (uid : Nat)
    (text : Str) (now : Int) :
    isDenial (faucet_receive_address env s uid text now).result = true →
    faucet_receive_address env s uid text now =
      ⟨(faucet_receive_address env s uid text now).result, s, [], none⟩ := by
  unfold faucet_receive_address disburse
  repeat' split
  all_goals first
    | (intro _; rfl)
    | (intro hd; exact absurd hd (by simp [isDenial]))

/-- The checks of faucet_receive_address fire in source order: identity
whitelist membership, then address format, then wallet approval, then
the identity cooldown. -/
theorem faucet_order (env : Web3Env) (s : BotState) (uid : Nat) (text : Str) (now : Int) :
    (alookup (toKey uid) s.whitelist = none →
      (faucet_receive_address env s uid text now).result = ClaimResult.notWhitelisted)
    ∧ (∀ ws, alookup (toKey uid) s.whitelist = some ws →
        is_address (pyLower (pyStrip text)) = false →
        (faucet_receive_address env s uid text now).result = ClaimResult.invalidAddress)
    ∧ (∀ ws, alookup (toKey uid) s.whitelist = some ws →
        is_address (pyLower (pyStrip text)) = true →
        pyLower (pyStrip text) ∉ ws →
        (faucet_receive_address env s uid text now).result = ClaimResult.walletNotApproved)
    ∧ (∀ ws r, alookup (toKey uid) s.whitelist = some ws →
        is_address (pyLower (pyStrip text)) = true →
        pyLower (pyStrip text) ∈ ws →
        onCooldownAt s.last_claim uid now = some r →
        (faucet_receive_address env s uid text now).result = ClaimResult.onCooldown r) := by
  unfold faucet_receive_address
  refine ⟨?_, ?_, ?_, ?_⟩
  · intro hw; rw [hw]
  · intro ws hw hv; rw [hw]; simp [hv]
  · intro ws hw hv hm; rw [hw]; simp [hv, hm]
  · intro ws r hw hv hm hc; rw [hw]; simp [hv, hm, hc]

/-- The gas limit of any transaction built by a claim is the constant
25000, and no gas estimation call ever happens. -/
theorem faucet_gas_shape (env : Web3Env) (s : BotState) (uid : Nat)
    (text : Str) (now : Int) :
    Effect.estimateGas ∉ (faucet_receive_address env s uid text now).effects ∧
    (∀ t, (faucet_receive_address env s uid text now).tx = some t → t.gas = 25000) := by
  unfold faucet_receive_address disburse
  repeat' split
  all_goals refine ⟨by simp, ?_⟩
  all_goals first
    | (intro t ht; simp at ht; rw [← ht]; rfl)
    | (intro t ht; simp at ht)

/-! Gap structure of one identity's successful claims along a trace. -/

/-- The event list is chronologically spaced: the first event is at least
one cooldown after the optional anchor time, and consecutive events are
at least one cooldown apart. -/
def GappedFrom (anchor : Option Int) : List ClaimEvent → Prop
  | [] => True
  | e :: rest =>
    (∀ t₀, anchor = some t₀ → cooldownSecs ≤ e.time - t₀) ∧ GappedFrom (some e.time) rest

/-- Off-cooldown means: any recorded last-claim time lies at least one
cooldown in the past. -/
theorem offCooldown_le {lc : List (Nat × Int)} {uid : Nat} {now : Int}
    (h : onCooldownAt lc uid now = none) :
    ∀ t₀, alookup uid lc = some t₀ → cooldownSecs ≤ now - t₀ := by
  intro t₀ ht
  unfold onCooldownAt at h
  rw [ht] at h
  by_cases hlt : now - t₀ < cooldownSecs
  · simp [hlt] at h
  · omega

/-- Along any request trace, the successful claims of a fixed identity
are spaced at least one cooldown apart, anchored at the identity's
current last_claim entry. -/
theorem trace_gapped (reqs : List ClaimRequest) :
    ∀ s uid, GappedFrom (alookup uid s.last_claim) (eventsBy uid (runTrace s reqs).2) := by
  induction reqs with
  | nil => intro s uid; simp [runTrace, eventsBy, GappedFrom]
  | cons r rest ih =>
    intro s uid
    rcases faucet_main r.env s r.uid r.text r.now with ⟨hst, hns⟩ | ⟨h, hsend, hres, hst, hcd⟩
    · have hev : stepEvents r (faucet_receive_address r.env s r.uid r.text r.now) = [] := by
        unfold stepEvents
        rcases hr : (faucet_receive_address r.env s r.uid r.text r.now).result <;> simp_all
      simp only [runTrace, hev, List.nil_append]
      rw [show (faucet_receive_address r.env s r.uid r.text r.now).state = s from hst]
      exact ih s uid
    · have hev : stepEvents r (faucet_receive_address r.env s r.uid r.text r.now) =
          [⟨r.uid, pyLower (pyStrip r.text), r.now⟩] := by
        unfold stepEvents
        rw [hres]
      simp only [runTrace, hev]
      by_cases huid : r.uid = uid
      · subst huid
        simp only [eventsBy, List.filter_append, List.filter_cons, List.filter_nil,
          decide_eq_true_eq, if_pos rfl]
        simp only [eventsBy] at ih
        constructor
        · intro t₀ ht₀
          exact offCooldown_le hcd t₀ ht₀
        · have hlook : alookup r.uid
              (faucet_receive_address r.env s r.uid r.text r.now).state.last_claim =
              some r.now := by
            rw [hst]
            exact alookup_aupdate_self r.uid r.now s.last_claim
          have := ih (faucet_receive_address r.env s r.uid r.text r.now).state r.uid
          rw [hlook] at this
          exact this
      · have hfil : eventsBy uid
            ([(⟨r.uid, pyLower (pyStrip r.text), r.now⟩ : ClaimEvent)] ++
              (runTrace (faucet_receive_address r.env s r.uid r.text r.now).state rest).2) =
            eventsBy uid
              (runTrace (faucet_receive_address r.env s r.uid r.text r.now).state rest).2 := by
          simp [eventsBy, List.filter_append, huid]
        rw [hfil]
        have hlook : alookup uid
            (faucet_receive_address r.env s r.uid r.text r.now).state.last_claim =
            alookup uid s.last_claim := by
          rw [hst]
          exact alookup_aupdate_ne r.now s.last_claim huid
        have := ih (faucet_receive_address r.env s r.uid r.text r.now).state uid
        rw [hlook] at this
        exact this

/-- Every event after a gapped anchor lies at least one cooldown past it. -/
theorem gapped_lower {evs : List ClaimEvent} :
    ∀ {a : Int}, GappedFrom (some a) evs → ∀ e ∈ evs, a + cooldownSecs ≤ e.time := by
  induction evs with
  | nil => intro a _ e he; cases he
  | cons x rest ih =>
    intro a h e he
    obtain ⟨h₁, h₂⟩ := h
    have hx : cooldownSecs ≤ x.time - a := h₁ a rfl
    rcases List.mem_cons.mp he with rfl | he
    · omega
    · have := ih h₂ e he
      have hpos : (0 : Int) ≤ cooldownSecs := by simp [cooldownSecs]
      omega

/-- A gapped event list meets any window of one cooldown length in at
most one event. -/
theorem gapped_window {t0 : Int} :
    ∀ (evs : List ClaimEvent) (anchor : Option Int), GappedFrom anchor evs →
      (evs.filter (inWindow t0)).length ≤ 1 := by
  intro evs
  induction evs with
  | nil => intro anchor _; simp
  | cons x rest ih =>
    intro anchor h
    obtain ⟨h₁, h₂⟩ := h
    by_cases hx : inWindow t0 x = true
    · have hnone : rest.filter (inWindow t0) = [] := by
        rw [List.filter_eq_nil_iff]
        intro e he
        have hge : x.time + cooldownSecs ≤ e.time := gapped_lower h₂ e he
        have hxw : t0 ≤ x.time ∧ x.time < t0 + cooldownSecs := by
          unfold inWindow at hx
          simp at hx
          exact hx
        unfold inWindow
        simp
        intro _
        omega
      rw [List.filter_cons, if_pos hx, hnone]
      simp
    · rw [List.filter_cons, if_neg hx]
      exact ih (some x.time) h₂

/-! Concrete fixtures for witnesses and counterexamples. -/

/-- A valid lower-case address. -/
def addrA : Str := "0xaaaaaaaaaaaaaaaaaaaaaaaaaaaaaaaaaaaaaaaa".data

/-- A second valid lower-case address. -/
def addrB : Str := "0xbbbbbbbbbbbbbbbbbbbbbbbbbbbbbbbbbbbbbbbb".data

/-- An environment in which every web3 call succeeds and the broadcast
returns the raw hash abc (without 0x prefix). -/
def envG : Web3Env :=
  { checksumOk := true, nonce := some 0, gasPrice := some 1, signOk := true,
    sendResult := some "abc".data }

/-- A state whitelisting users 1 and 2, both approved for addrA, with an
empty claim ledger. -/
def sC : BotState :=
  { whitelist := [("1".data, [addrA]), ("2".data, [addrA])], last_claim := [],
    amount := FAUCET_AMOUNT_default, savedUsers := none }

/-- A state whitelisting user 1 for addrA, whose last claim happened at
time 0, persisted to disk. -/
def sCd : BotState :=
  { whitelist := [("1".data, [addrA])], last_claim := [(1, 0)],
    amount := FAUCET_AMOUNT_default, savedUsers := some [("1".data, [addrA])] }

/-- A state whitelisting user 1 for addrA with the whitelist persisted,
used for the admin-mutation claims. -/
def sAdm : BotState :=
  { whitelist := [("1".data, [addrA])], last_claim := [],
    amount := FAUCET_AMOUNT_default, savedUsers := some [("1".data, [addrA])] }

/-- Message adding wallet addrB to user 1, for admin_add_wallet_input. -/
def walletMsg : Str := addrB ++ " 1".data

/-! The claims. -/

/-- C1, counterexample: user 1 successfully claims for address addrA at
time 0; user 2, also approved for addrA, claims for the same address one
hour later, far inside the 24 hour cooldown, and that claim succeeds
rather than being denied: the cooldown is not keyed by the destination
address. -/
theorem cooldown_not_address_keyed_cex :
    (faucet_receive_address envG sC 1 addrA 0).result =
      ClaimResult.success "0xabc".data ∧
    ((3600 : Int) - 0 < cooldownSecs) ∧
    (faucet_receive_address envG (faucet_receive_address envG sC 1 addrA 0).state
        2 addrA 3600).result = ClaimResult.success "0xabc".data ∧
    isDenial (faucet_receive_address envG (faucet_receive_address envG sC 1 addrA 0).state
        2 addrA 3600).result = false := by
  exact ⟨by decide, by decide, by decide, by decide⟩

/-- C1, amended: the cooldown check consults the last successful claim
time recorded for the requesting identity, not for the destination
address. After a successful claim by an identity at time now, any claim
request by the same identity, for any destination address, attempted at
now2 with now2 - now less than the cooldown is never a success, and is
denied with the cooldown reason and the exact remaining time whenever it
passes the whitelist and wallet-approval checks. -/
theorem cooldown_keyed_by_identity (env env2 : Web3Env) (s : BotState) (uid : Nat)
    (text text2 : Str) (now now2 : Int) (h : Str)
    (hsucc : (faucet_receive_address env s uid text now).result = ClaimResult.success h)
    (hlt : now2 - now < cooldownSecs) :
    (∀ g, (faucet_receive_address env2 (faucet_receive_address env s uid text now).state
        uid text2 now2).result ≠ ClaimResult.success g) ∧
    (∀ ws, alookup (toKey uid) (faucet_receive_address env s uid text now).state.whitelist
        = some ws →
      is_address (pyLower (pyStrip text2)) = true →
      pyLower (pyStrip text2) ∈ ws →
      (faucet_receive_address env2 (faucet_receive_address env s uid text now).state
          uid text2 now2).result = ClaimResult.onCooldown (cooldownSecs - (now2 - now))) := by
  rcases faucet_main env s uid text now with ⟨hst, hns⟩ | ⟨g, hsend, hres, hst, hcd⟩
  · exact absurd hsucc (hns h)
  · have hlook : alookup uid (faucet_receive_address env s uid text now).state.last_claim
        = some now := by
      rw [hst]; exact alookup_aupdate_self uid now s.last_claim
    have hcd2 : onCooldownAt (faucet_receive_address env s uid text now).state.last_claim
        uid now2 = some (cooldownSecs - (now2 - now)) := by
      unfold onCooldownAt
      rw [hlook]
      simp [hlt]
    constructor
    · intro g2 hg2
      rcases faucet_main env2 (faucet_receive_address env s uid text now).state uid text2 now2
        with ⟨_, hns2⟩ | ⟨g3, _, _, _, hcd3⟩
      · exact hns2 g2 hg2
      · rw [hcd2] at hcd3; cases hcd3
    · intro ws hws hv hm
      exact (faucet_order env2 _ uid text2 now2).2.2.2 ws _ hws hv hm hcd2

/-- C1, witness: user 1 claims addrA at time 0 and is then denied with
the cooldown reason at time 3600. -/
theorem cooldown_keyed_by_identity_witness :
    (faucet_receive_address envG (faucet_receive_address envG sC 1 addrA 0).state
        1 addrA 3600).result = ClaimResult.onCooldown (cooldownSecs - (3600 - 0)) :=
  (cooldown_keyed_by_identity envG envG sC 1 addrA addrA 0 3600 "0xabc".data
    (by decide) (by decide)).2 [addrA] (by decide) (by decide) (by decide)

/-- C2, counterexample: user 3 is not whitelisted and submits the
malformed address zzz; the reply is the not-whitelisted denial, not the
invalid-address denial, because the whitelist check runs first. -/
theorem check_order_cex :
    (faucet_receive_address envG sC 3 "zzz".data 0).result = ClaimResult.notWhitelisted ∧
    (faucet_receive_address envG sC 3 "zzz".data 0).result ≠ ClaimResult.invalidAddress := by
  exact ⟨by decide, by decide⟩

/-- C2, amended: the eligibility checks run in the fixed source order
with short-circuit on the first denial: (1) identity whitelist membership
(deny notWhitelisted), (2) address format validation (deny
invalidAddress), (3) per-identity wallet approval (deny
walletNotApproved), (4) identity cooldown (deny onCooldown); in
particular a malformed address from a non-whitelisted identity is denied
for the missing whitelist entry. -/
theorem check_order (env : Web3Env) (s : BotState) (uid : Nat) (text : Str) (now : Int) :
    (alookup (toKey uid) s.whitelist = none →
      (faucet_receive_address env s uid text now).result = ClaimResult.notWhitelisted)
    ∧ (∀ ws, alookup (toKey uid) s.whitelist = some ws →
        is_address (pyLower (pyStrip text)) = false →
        (faucet_receive_address env s uid text now).result = ClaimResult.invalidAddress)
    ∧ (∀ ws, alookup (toKey uid) s.whitelist = some ws →
        is_address (pyLower (pyStrip text)) = true →
        pyLower (pyStrip text) ∉ ws →
        (faucet_receive_address env s uid text now).result = ClaimResult.walletNotApproved)
    ∧ (∀ ws r, alookup (toKey uid) s.whitelist = some ws →
        is_address (pyLower (pyStrip text)) = true →
        pyLower (pyStrip text) ∈ ws →
        onCooldownAt s.last_claim uid now = some r →
        (faucet_receive_address env s uid text now).result = ClaimResult.onCooldown r) :=
  faucet_order env s uid text now

/-- C2, witness: each of the four checks observed firing at a concrete
input, in order. -/
theorem check_order_witness :
    (faucet_receive_address envG sC 3 addrB 0).result = ClaimResult.notWhitelisted ∧
    (faucet_receive_address envG sC 1 "zzz".data 0).result = ClaimResult.invalidAddress ∧
    (faucet_receive_address envG sC 1 addrB 0).result = ClaimResult.walletNotApproved ∧
    (faucet_receive_address envG sCd 1 addrA 10).result =
      ClaimResult.onCooldown (cooldownSecs - (10 - 0)) :=
  ⟨(check_order envG sC 3 addrB 0).1 (by decide),
   (check_order envG sC 1 "zzz".data 0).2.1 [addrA] (by decide) (by decide),
   (check_order envG sC 1 addrB 0).2.2.1 [addrA] (by decide) (by decide) (by decide),
   (check_order envG sCd 1 addrA 10).2.2.2 [addrA] (cooldownSecs - (10 - 0))
     (by decide) (by decide) (by decide) (by decide)⟩

/-- C3, counterexample: a concrete approved claim succeeds without any
gas-estimation call and with the fixed gas limit 25000 in its
transaction, whereas the gas rule described by the spec would, for
example, turn an estimate of 100000 with margin 1.2 into the limit
120000. -/
theorem gas_estimation_cex :
    (faucet_receive_address envG sC 1 addrA 0).result =
      ClaimResult.success "0xabc".data ∧
    Effect.estimateGas ∉ (faucet_receive_address envG sC 1 addrA 0).effects ∧
    (faucet_receive_address envG sC 1 addrA 0).tx = some (mkTx sC 0 1 addrA) ∧
    (mkTx sC 0 1 addrA).gas = 25000 ∧
    gasLimitSpec (some 100000) 12 10 50000 = 120000 ∧
    (25000 : Nat) ≠ 120000 :=
  ⟨by decide, by decide, by rfl, by rfl, by rfl, by decide⟩

/-- C3, amended: the disbursement never attempts gas estimation; every
transaction it builds carries the fixed gas limit 25000, independent of
any estimate, margin factor or fallback. -/
theorem gas_fixed_limit (env : Web3Env) (s : BotState) (uid : Nat)
    (text : Str) (now : Int) :
    Effect.estimateGas ∉ (faucet_receive_address env s uid text now).effects ∧
    (∀ t, (faucet_receive_address env s uid text now).tx = some t → t.gas = 25000) :=
  faucet_gas_shape env s uid text now

/-- C3, witness: the transaction of a concrete successful claim carries
gas limit 25000. -/
theorem gas_fixed_limit_witness : (mkTx sC 0 1 addrA).gas = 25000 :=
  (gas_fixed_limit envG sC 1 addrA 0).2 (mkTx sC 0 1 addrA) (by rfl)

/-- C4: the claim ledger is mutated exactly when the broadcast succeeds:
either the module state is returned untouched and the result is not a
success, or send_raw_transaction returned a hash, the result is the
success of that normalized hash, and the new state differs from the old
precisely by recording the claim time of the identity. Signing or
broadcasting errors land in the first case, so no ledger entry is ever
created without a successful submission returning a transaction
reference. -/
theorem ledger_mutation_iff_send (env : Web3Env) (s : BotState) (uid : Nat)
    (text : Str) (now : Int) :
    ((faucet_receive_address env s uid text now).state = s ∧
      ∀ h, (faucet_receive_address env s uid text now).result ≠ ClaimResult.success h)
    ∨ (∃ h, env.sendResult = some h ∧
        (faucet_receive_address env s uid text now).result =
          ClaimResult.success (normalizeHash h) ∧
        (faucet_receive_address env s uid text now).state =
          { s with last_claim := aupdate uid now s.last_claim } ∧
        (faucet_receive_address env s uid text now).state ≠ s) := by
  rcases faucet_main env s uid text now with h | ⟨g, hsend, hres, hst, hcd⟩
  · exact Or.inl h
  · refine Or.inr ⟨g, hsend, hres, hst, ?_⟩
    rw [hst]
    intro heq
    have hlc := congrArg BotState.last_claim heq
    simp at hlc
    exact aupdate_ne_of_offCooldown hcd hlc

/-- C5: along any sequence of claim requests started from any state, the
number of distinct destination addresses successfully claimed by one
identity inside any sliding window of one cooldown length never exceeds
the per-user address cap of 10: the identity cooldown allows at most one
successful claim per window. -/
theorem identity_window_address_cap (s : BotState) (reqs : List ClaimRequest)
    (uid : Nat) (t0 : Int) :
    distinctAddressesIn uid t0 (runTrace s reqs).2 ≤ MAX_WALLETS_PER_USER := by
  have hg := trace_gapped reqs s uid
  have hw : ((eventsBy uid (runTrace s reqs).2).filter (inWindow t0)).length ≤ 1 :=
    gapped_window _ _ hg
  unfold distinctAddressesIn
  have h1 := (List.dedup_sublist
    (((eventsBy uid (runTrace s reqs).2).filter (inWindow t0)).map
      (fun e => e.address))).length_le
  rw [List.length_map] at h1
  unfold MAX_WALLETS_PER_USER
  omega

/-- C6: a denied claim request (not whitelisted, malformed address,
unapproved wallet, or active cooldown) leaves the module state unchanged,
performs no submission-side call (no nonce lookup, no signing, no
broadcast), builds no transaction, and repeating the identical request on
the resulting state reproduces the identical outcome. -/
theorem denial_no_side_effects (env : Web3Env) (s : BotState) (uid : Nat)
    (text : Str) (now : Int)
    (hd : isDenial (faucet_receive_address env s uid text now).result = true) :
    (faucet_receive_address env s uid text now).state = s ∧
    (faucet_receive_address env s uid text now).effects = [] ∧
    (faucet_receive_address env s uid text now).tx = none ∧
    faucet_receive_address env (faucet_receive_address env s uid text now).state uid text now
      = faucet_receive_address env s uid text now := by
  have h := faucet_denial_shape env s uid text now hd
  have hs : (faucet_receive_address env s uid text now).state = s := by rw [h]
  refine ⟨hs, by rw [h], by rw [h], by rw [hs]⟩

/-- C6, witness: the not-whitelisted user 3 is denied with no state
change, no effects and no transaction, and the repeat is identical. -/
theorem denial_no_side_effects_witness :
    (faucet_receive_address envG sC 3 addrA 0).state = sC ∧
    (faucet_receive_address envG sC 3 addrA 0).effects = [] ∧
    (faucet_receive_address envG sC 3 addrA 0).tx = none ∧
    faucet_receive_address envG (faucet_receive_address envG sC 3 addrA 0).state 3 addrA 0
      = faucet_receive_address envG sC 3 addrA 0 :=
  denial_no_side_effects envG sC 3 addrA 0 (by decide)

/-- C7, counterexample: setting the faucet amount to 0.5 reports success
and changes the in-memory amount, but writes nothing to disk, and after a
process restart the amount is back to the default 0.001, which differs
from 0.5: the configuration update does not survive a restart. Moreover
even a whitelist mutation is not persisted before reporting success: when
the file write inside save_whitelist raises, adding user 5 still reports
success and changes the in-memory whitelist, yet the persisted file is
unchanged and a restart loses the addition. -/
theorem admin_persistence_cex :
    (admin_set_amount_input 0 sAdm (some (1 / 2))).2 = true ∧
    (admin_set_amount_input 0 sAdm (some (1 / 2))).1.amount = 1 / 2 ∧
    (restart (admin_set_amount_input 0 sAdm (some (1 / 2))).1.savedUsers).amount
      = FAUCET_AMOUNT_default ∧
    ((1 : ℚ) / 2) ≠ FAUCET_AMOUNT_default ∧
    (admin_add_user_input false 0 sAdm "5".data).2 = true ∧
    (admin_add_user_input false 0 sAdm "5".data).1.whitelist ≠ sAdm.whitelist ∧
    (admin_add_user_input false 0 sAdm "5".data).1.savedUsers = sAdm.savedUsers ∧
    (restart (admin_add_user_input false 0 sAdm "5".data).1.savedUsers).whitelist
      = sAdm.whitelist :=
  ⟨rfl, rfl, rfl, by norm_num [FAUCET_AMOUNT_default],
   by decide, by decide, by decide, by decide⟩

/-- C7, amended: the whitelist mutations (add user, remove user, add
wallet, remove wallet) attempt to write the updated whitelist to the
persisted file before reporting success: when the write succeeds the
mutated whitelist survives a restart, but when the write raises the
error is swallowed inside save_whitelist, success is still reported, and
the persisted file is left unchanged; the claim-amount update, in
contrast, changes only the in-memory global, never touches the persisted
file, and after any restart the amount is the literal default again. -/
theorem admin_mutation_persistence (c : Nat) (s : BotState) (text : Str) (p : Option ℚ) :
    ((admin_add_user_input true c s text).2 = true →
      (restart (admin_add_user_input true c s text).1.savedUsers).whitelist =
        (admin_add_user_input true c s text).1.whitelist) ∧
    ((admin_add_user_input false c s text).1.savedUsers = s.savedUsers) ∧
    ((admin_remove_user_input true c s text).2 = true →
      (restart (admin_remove_user_input true c s text).1.savedUsers).whitelist =
        (admin_remove_user_input true c s text).1.whitelist) ∧
    ((admin_remove_user_input false c s text).1.savedUsers = s.savedUsers) ∧
    ((admin_add_wallet_input true c s text).2 = true →
      (restart (admin_add_wallet_input true c s text).1.savedUsers).whitelist =
        (admin_add_wallet_input true c s text).1.whitelist) ∧
    ((admin_add_wallet_input false c s text).1.savedUsers = s.savedUsers) ∧
    ((admin_remove_wallet_input true c s text).2 = true →
      (restart (admin_remove_wallet_input true c s text).1.savedUsers).whitelist =
        (admin_remove_wallet_input true c s text).1.whitelist) ∧
    ((admin_remove_wallet_input false c s text).1.savedUsers = s.savedUsers) ∧
    ((admin_set_amount_input c s p).1.savedUsers = s.savedUsers) ∧
    ((restart (admin_set_amount_input c s p).1.savedUsers).amount
      = FAUCET_AMOUNT_default) := by
  refine ⟨?_, ?_, ?_, ?_, ?_, ?_, ?_, ?_, ?_, ?_⟩
  · unfold admin_add_user_input save_whitelist restart load_whitelist
    repeat' split
    all_goals simp_all
  · unfold admin_add_user_input save_whitelist
    repeat' split
    all_goals simp_all
  · unfold admin_remove_user_input save_whitelist restart load_whitelist
    repeat' split
    all_goals simp_all
  · unfold admin_remove_user_input save_whitelist
    repeat' split
    all_goals simp_all
  · unfold admin_add_wallet_input save_whitelist restart load_whitelist
    repeat' split
    all_goals simp_all
  · unfold admin_add_wallet_input save_whitelist
    repeat' split
    all_goals simp_all
  · unfold admin_remove_wallet_input save_whitelist restart load_whitelist
    repeat' split
    all_goals simp_all
  · unfold admin_remove_wallet_input save_whitelist
    repeat' split
    all_goals simp_all
  · unfold admin_set_amount_input
    split
    all_goals rfl
  · unfold admin_set_amount_input restart
    split
    all_goals rfl

/-- C7, witness: each whitelist mutation observed persisted at a concrete
input when the write succeeds and unpersisted when the write raises, and
the amount update observed unpersisted. -/
theorem admin_mutation_persistence_witness :
    (restart (admin_add_user_input true 0 sAdm "5".data).1.savedUsers).whitelist =
      (admin_add_user_input true 0 sAdm "5".data).1.whitelist ∧
    (admin_add_user_input false 0 sAdm "5".data).1.savedUsers = sAdm.savedUsers ∧
    (restart (admin_remove_user_input true 0 sAdm "1".data).1.savedUsers).whitelist =
      (admin_remove_user_input true 0 sAdm "1".data).1.whitelist ∧
    (admin_remove_user_input false 0 sAdm "1".data).1.savedUsers = sAdm.savedUsers ∧
    (restart (admin_add_wallet_input true 0 sAdm walletMsg).1.savedUsers).whitelist =
      (admin_add_wallet_input true 0 sAdm walletMsg).1.whitelist ∧
    (admin_add_wallet_input false 0 sAdm walletMsg).1.savedUsers = sAdm.savedUsers ∧
    (restart (admin_remove_wallet_input true 0 sAdm addrA).1.savedUsers).whitelist =
      (admin_remove_wallet_input true 0 sAdm addrA).1.whitelist ∧
    (admin_remove_wallet_input false 0 sAdm addrA).1.savedUsers = sAdm.savedUsers ∧
    (admin_set_amount_input 0 sAdm (some (1 / 2))).1.savedUsers = sAdm.savedUsers ∧
    (restart (admin_set_amount_input 0 sAdm (some (1 / 2))).1.savedUsers).amount
      = FAUCET_AMOUNT_default :=
  ⟨(admin_mutation_persistence 0 sAdm "5".data (some (1 / 2))).1 (by decide),
   (admin_mutation_persistence 0 sAdm "5".data (some (1 / 2))).2.1,
   (admin_mutation_persistence 0 sAdm "1".data (some (1 / 2))).2.2.1 (by decide),
   (admin_mutation_persistence 0 sAdm "1".data (some (1 / 2))).2.2.2.1,
   (admin_mutation_persistence 0 sAdm walletMsg (some (1 / 2))).2.2.2.2.1 (by decide),
   (admin_mutation_persistence 0 sAdm walletMsg (some (1 / 2))).2.2.2.2.2.1,
   (admin_mutation_persistence 0 sAdm addrA (some (1 / 2))).2.2.2.2.2.2.1 (by decide),
   (admin_mutation_persistence 0 sAdm addrA (some (1 / 2))).2.2.2.2.2.2.2.1,
   (admin_mutation_persistence 0 sAdm addrA (some (1 / 2))).2.2.2.2.2.2.2.2.1,
   (admin_mutation_persistence 0 sAdm addrA (some (1 / 2))).2.2.2.2.2.2.2.2.2⟩

/-- C9: none of the admin handlers consults the caller identity: for any
two caller ids, the same state, input text and file-write outcome produce
identical outcomes (identical whitelist and configuration mutations and
identical success flags) in admin_panel and every admin mutation
handler. -/
theorem admin_handlers_caller_independent (k : Bool) (c₁ c₂ : Nat) (s : BotState)
    (text : Str) (p : Option ℚ) :
    admin_panel c₁ s = admin_panel c₂ s ∧
    admin_add_user_input k c₁ s text = admin_add_user_input k c₂ s text ∧
    admin_remove_user_input k c₁ s text = admin_remove_user_input k c₂ s text ∧
    admin_add_wallet_input k c₁ s text = admin_add_wallet_input k c₂ s text ∧
    admin_remove_wallet_input k c₁ s text = admin_remove_wallet_input k c₂ s text ∧
    admin_set_amount_input c₁ s p = admin_set_amount_input c₂ s p :=
  ⟨rfl, rfl, rfl, rfl, rfl, rfl⟩

/-! Name resolution model for C10: the names bound at module top level
during evaluation of src/bot.py, and the global names referenced by the
module-level ADMIN_CONV_HANDLER expression, by admin_callback_handler and
by main. -/

/-- Every name bound at the top level of src/bot.py: imports (lines 1 to
18), assignments and function definitions. -/
def moduleTopLevelNames : List String :=
  ["json", "logging", "os", "datetime", "timedelta", "load_dotenv",
   "Update", "ReplyKeyboardMarkup", "ReplyKeyboardRemove",
   "InlineKeyboardButton", "InlineKeyboardMarkup",
   "Updater", "CommandHandler", "MessageHandler", "Filters",
   "ConversationHandler", "CallbackContext", "CallbackQueryHandler",
   "Web3", "TELEGRAM_TOKEN", "ETH_RPC_URL", "FAUCET_ADDRESS",
   "FAUCET_PRIVATE_KEY", "ADMIN_ID", "FAUCET_AMOUNT", "CHAIN_ID",
   "WHITELIST_FILE", "logger", "whitelist", "load_whitelist",
   "save_whitelist", "pending_requests", "w3", "last_claim",
   "FAUCET_WAIT_ADDRESS", "main_menu_keyboard", "admin_menu_keyboard",
   "start", "help_command", "status", "balance", "request_whitelist",
   "faucet_start", "faucet_receive_address", "faucet_cancel",
   "admin_panel", "admin_callback_handler", "admin_add_user_input",
   "admin_remove_user_input", "admin_add_wallet_input",
   "admin_remove_wallet_input", "admin_set_amount_input", "admin_cancel",
   "ADMIN_CONV_HANDLER", "main_menu_handler", "faucet_conv_handler",
   "main"]

/-- The global names referenced by the module-level ADMIN_CONV_HANDLER
expression (src/bot.py lines 380 to 393), evaluated at import time. -/
def adminConvHandlerRefs : List String :=
  ["ConversationHandler", "CommandHandler", "admin_panel",
   "MessageHandler", "Filters", "CallbackQueryHandler",
   "admin_callback_handler", "ADMIN_CHOICE", "ADMIN_ADD_USER",
   "ADMIN_REMOVE_USER", "ADMIN_ADD_WALLET", "ADMIN_REMOVE_WALLET",
   "ADMIN_SET_AMOUNT", "admin_add_user_input", "admin_remove_user_input",
   "admin_add_wallet_input", "admin_remove_wallet_input",
   "admin_set_amount_input", "admin_cancel"]

/-- The global names referenced inside admin_callback_handler (src/bot.py
lines 262 to 297). -/
def adminCallbackHandlerRefs : List String :=
  ["ConversationHandler", "ADMIN_ADD_USER", "ADMIN_REMOVE_USER",
   "ADMIN_ADD_WALLET", "ADMIN_REMOVE_WALLET", "ADMIN_SET_AMOUNT",
   "ADMIN_CHOICE", "list_whitelist", "pending_requests",
   "admin_menu_keyboard"]

/-- The global names referenced inside main (src/bot.py lines 421 to
444). -/
def mainRefs : List String :=
  ["Updater", "TELEGRAM_TOKEN", "CommandHandler", "start",
   "faucet_conv_handler", "MessageHandler", "Filters",
   "main_menu_handler", "balance", "request_whitelist", "list_requests",
   "ADMIN_CONV_HANDLER", "add_user", "remove_user", "add_wallet",
   "remove_wallet", "set_amount", "list_whitelist", "logger"]

/-- The names the module references but never binds. -/
def undefinedNames : List String :=
  ["ADMIN_CHOICE", "ADMIN_ADD_USER", "ADMIN_REMOVE_USER",
   "ADMIN_ADD_WALLET", "ADMIN_REMOVE_WALLET", "ADMIN_SET_AMOUNT",
   "list_whitelist", "list_requests", "add_user", "remove_user",
   "add_wallet", "remove_wallet", "set_amount"]

/-- C10: every conversation-state constant and every fallback command
handler the module refers to is bound nowhere at module top level, and
the module-level ADMIN_CONV_HANDLER expression references the unbound
ADMIN_CHOICE and its five sibling constants, so evaluating it at import
time raises a NameError and the program cannot start; were execution to
reach them, admin_callback_handler references the unbound
list_whitelist, and main references the unbound list_requests, add_user,
remove_user, add_wallet, remove_wallet, set_amount and list_whitelist. -/
theorem module_undefined_names :
    (∀ n ∈ undefinedNames, n ∉ moduleTopLevelNames) ∧
    "ADMIN_CHOICE" ∈ adminConvHandlerRefs ∧
    "ADMIN_ADD_USER" ∈ adminConvHandlerRefs ∧
    "ADMIN_REMOVE_USER" ∈ adminConvHandlerRefs ∧
    "ADMIN_ADD_WALLET" ∈ adminConvHandlerRefs ∧
    "ADMIN_REMOVE_WALLET" ∈ adminConvHandlerRefs ∧
    "ADMIN_SET_AMOUNT" ∈ adminConvHandlerRefs ∧
    "list_whitelist" ∈ adminCallbackHandlerRefs ∧
    "list_requests" ∈ mainRefs ∧ "add_user" ∈ mainRefs ∧
    "remove_user" ∈ mainRefs ∧ "add_wallet" ∈ mainRefs ∧
    "remove_wallet" ∈ mainRefs ∧ "set_amount" ∈ mainRefs ∧
    "list_whitelist" ∈ mainRefs := by
  exact ⟨by decide, by decide, by decide, by decide, by decide, by decide, by decide,
    by decide, by decide, by decide, by decide, by decide, by decide, by decide, by decide⟩

end Faucet
